import Mathlib

/-!
Verification development for the WebUpdateBot repository.

The repository monitors web pages for content changes and notifies users
through a chat bot.  The core logic lives in two files:

* monitor.py — a stateless page monitor: fetching (external HTTP), HTML
  cleaning (external BeautifulSoup parse followed by decompose of
  script/style/meta/noscript elements and text extraction), hashing
  (external hashlib sha256) and the change classifier check_for_changes.
* bot.py — the per-monitor reconciliation job (check_url_job), the
  scheduler (schedule_monitor_job / remove_jobs_by_name) and the
  conversation handlers that create and update monitors
  (follow_freq_input, update_save).

External collaborators (HTTP fetch, the HTML parser producing a node tree,
and the sha256 hex digest) are modelled as function parameters.  The
persisted monitors table is a list of rows; the job queue is a list of
timers.  Each bot handler is translated to a pure state transition.
-/

set_option maxHeartbeats 1000000

/-- A parsed HTML node tree, the shape BeautifulSoup exposes to the code:
text nodes and named elements with children. -/
inductive Node where
  | text : String → Node
  | elem : String → List Node → Node

/-- The tag names removed by clean_content in monitor.py:
soup(["script", "style", "meta", "noscript"]). -/
def removedTags : List String := ["script", "style", "meta", "noscript"]

/-- Effect of the decompose loop in clean_content: every element whose tag
is in bad is removed from the tree together with its whole subtree. -/
def removeBadList (bad : List String) : List Node → List Node
  | [] => []
  | Node.text s :: rest => Node.text s :: removeBadList bad rest
  | Node.elem tag cs :: rest =>
      if bad.contains tag then removeBadList bad rest
      else Node.elem tag (removeBadList bad cs) :: removeBadList bad rest

/-- All text nodes of a forest, in document order (the strings a
BeautifulSoup tree yields to get_text). -/
def textNodesList : List Node → List String
  | [] => []
  | Node.text s :: rest => s :: textNodesList rest
  | Node.elem _ cs :: rest => textNodesList cs ++ textNodesList rest

/-- Specification view of removal: collect text nodes while skipping every
subtree rooted at a bad tag.  Used to state that clean_content removes the
blocks entirely, inner text included. -/
def visibleTextsList (bad : List String) : List Node → List String
  | [] => []
  | Node.text s :: rest => s :: visibleTextsList bad rest
  | Node.elem tag cs :: rest =>
      if bad.contains tag then visibleTextsList bad rest
      else visibleTextsList bad cs ++ visibleTextsList bad rest

/-- BeautifulSoup stripped_strings: each string stripped, empty results
dropped. -/
def strippedList (l : List String) : List String :=
  (l.map String.trim).filter (fun s => !s.isEmpty)

/-- BeautifulSoup get_text with a separator and strip=True: the stripped
non-empty strings joined with the separator. -/
def get_text (sep : String) (ns : List Node) : String :=
  String.intercalate sep (strippedList (textNodesList ns))

/-- PageMonitor.clean_content: empty input yields the empty string,
otherwise parse, decompose script/style/meta/noscript, and extract text
with a single-space separator, stripped. -/
def clean_content (parse : String → List Node) (html_content : String) : String :=
  if html_content.isEmpty then ""
  else get_text " " (removeBadList removedTags (parse html_content))

/-- The summary string built in the change branch of check_for_changes,
with n the character length of the normalized text. -/
def changedSummary (n : Nat) : String :=
  "Content changed. New content length: " ++ toString n ++ " characters."

/-- PageMonitor.check_for_changes.  fetch_content is the external HTTP
fetch (None on request errors), parse the external HTML parser and
sha256_hex the external digest.  The Python guard "if not html" is true
both for None and for the empty string. -/
def check_for_changes (fetch_content : String → Option String)
    (parse : String → List Node) (sha256_hex : String → String)
    (url : String) (old_hash : Option String) : Option String × Bool × String :=
  match fetch_content url with
  | none => (old_hash, false, "Failed to fetch content.")
  | some html =>
    if html.isEmpty then (old_hash, false, "Failed to fetch content.")
    else
      let text := clean_content parse html
      let new_hash := sha256_hex text
      match old_hash with
      | none => (some new_hash, false, "Initial check. Monitoring started.")
      | some oh =>
        if new_hash ≠ oh then (some new_hash, true, changedSummary text.length)
        else (some new_hash, false, "No changes.")

/-- A row of the monitors table (database.py). -/
structure Monitor where
  id : Nat
  user_id : Int
  url : String
  frequency : Int
  last_checked : Option Nat
  content_hash : Option String
  is_active : Bool
deriving DecidableEq

/-- The payload stored with each scheduled job in bot.py. -/
structure JobData where
  url : String
  user_id : Int
  monitor_id : Nat
deriving DecidableEq

/-- A job-queue entry created by run_repeating: name, repeat interval in
seconds, first-fire delay in seconds, payload. -/
structure Timer where
  name : String
  interval : Int
  first : Nat
  data : JobData
deriving DecidableEq

/-- session.get(Monitor, id): look the row up by primary key. -/
def getMonitor (store : List Monitor) (id : Nat) : Option Monitor :=
  store.find? (fun m => m.id == id)

/-- Mutate the first row satisfying p with f, leaving every other row
untouched; identity when no row matches.  This is how a session.get or
select-first followed by attribute assignment and commit acts on the
table. -/
def updateFirstWhere (p : Monitor → Bool) (f : Monitor → Monitor) : List Monitor → List Monitor
  | [] => []
  | m :: rest => if p m then f m :: rest else m :: updateFirstWhere p f rest

/-- The write block of check_url_job: re-load the row by id and set only
content_hash and last_checked; nothing happens when the row is gone. -/
def updateMonitorRow (store : List Monitor) (id : Nat) (nh : Option String) (now : Nat) :
    List Monitor :=
  updateFirstWhere (fun m => m.id == id)
    (fun m => { m with content_hash := nh, last_checked := some now }) store

/-- The notification text sent by check_url_job on a detected change. -/
def notifyText (url summary : String) : String :=
  "📢 **UPDATE DETECTED!**" ++ "\n\n" ++ url ++ "\n\n" ++ summary

/-- Observable outcome of one tick of check_url_job: the table after the
tick, whether the job removed its own timer, the notification attempts,
the notifications actually delivered, and whether the page was fetched. -/
structure JobResult where
  store : List Monitor
  cancelled : Bool
  attempted : List (Int × String)
  delivered : List (Int × String)
  fetched : Bool
deriving DecidableEq

/-- check_url_job in bot.py.  store_load is the table at the first session
(loading the row), store_write the table at the second session (the
write), so the re-load-fresh behaviour is explicit.  sendOk tells whether
chat delivery succeeds; the except branch only logs, so control always
reaches the write. -/
def check_url_job (fetch_content : String → Option String)
    (parse : String → List Node) (sha256_hex : String → String)
    (sendOk : Bool) (now : Nat) (data : JobData)
    (store_load store_write : List Monitor) : JobResult :=
  match getMonitor store_load data.monitor_id with
  | none => ⟨store_write, true, [], [], false⟩
  | some monitor =>
    if monitor.is_active then
      match check_for_changes fetch_content parse sha256_hex data.url monitor.content_hash with
      | (new_hash, changed, summary) =>
        if changed then
          ⟨updateMonitorRow store_write data.monitor_id new_hash now, false,
           [(data.user_id, notifyText data.url summary)],
           if sendOk then [(data.user_id, notifyText data.url summary)] else [],
           true⟩
        else if new_hash ≠ monitor.content_hash then
          ⟨updateMonitorRow store_write data.monitor_id new_hash now, false, [], [], true⟩
        else
          ⟨store_write, false, [], [], true⟩
    else ⟨store_write, true, [], [], false⟩

/-- remove_jobs_by_name: schedule_removal on every job with that name. -/
def remove_jobs_by_name (q : List Timer) (name : String) : List Timer :=
  q.filter (fun j => !(j.name == name))

/-- schedule_monitor_job: remove any job named str(monitor_id), then
run_repeating with interval minutes converted to seconds and a 10 second
first-fire delay. -/
def schedule_monitor_job (q : List Timer) (monitor_id : Nat) (url : String)
    (user_id : Int) (interval : Int) : List Timer :=
  remove_jobs_by_name q (toString monitor_id) ++
    [⟨toString monitor_id, interval * 60, 10, ⟨url, user_id, monitor_id⟩⟩]

/-- Whitespace stripping on the character list, the effect of str.strip
inside int() parsing. -/
def stripChars (cs : List Char) : List Char :=
  ((cs.dropWhile Char.isWhitespace).reverse.dropWhile Char.isWhitespace).reverse

/-- Tail of a valid Python integer literal: digits, with single
underscores allowed between digits. -/
def pyDigitsTail : List Char → Bool
  | [] => true
  | c :: rest =>
      if c == '_' then
        match rest with
        | [] => false
        | d :: rest2 => d.isDigit && pyDigitsTail rest2
      else c.isDigit && pyDigitsTail rest

/-- A valid run of digits for int(): non-empty, starts with a digit, no
leading or trailing or doubled underscore. -/
def pyDigitsOk : List Char → Bool
  | [] => false
  | c :: rest => c.isDigit && pyDigitsTail rest

/-- Numeric value of a digit run, underscores skipped. -/
def digitsVal (acc : Nat) : List Char → Nat
  | [] => acc
  | c :: rest =>
      if c == '_' then digitsVal acc rest
      else digitsVal (10 * acc + (c.toNat - 48)) rest

/-- Python int(text) on a stripped string: optional sign followed by a
digit run (ASCII digits modelled). -/
def pyInt (s : String) : Option Int :=
  match stripChars s.data with
  | [] => none
  | c :: rest =>
      if c == '+' then
        if pyDigitsOk rest then some (Int.ofNat (digitsVal 0 rest)) else none
      else if c == '-' then
        if pyDigitsOk rest then some (-(Int.ofNat (digitsVal 0 rest))) else none
      else
        if pyDigitsOk (c :: rest) then some (Int.ofNat (digitsVal 0 (c :: rest))) else none

/-- Conversation states returned by the handlers modelled here. -/
inductive ConvState where
  | follow_freq
  | update_freq
  | conv_end
deriving DecidableEq

/-- Outcome of one bot handler call: next conversation state, the table,
the job queue, and the reply text sent to the user. -/
structure BotOutcome where
  state : ConvState
  store : List Monitor
  timers : List Timer
  reply : String
deriving DecidableEq

/-- follow_freq_input in bot.py: parse the interval, reject below 5 or
non-numeric, hash the verification-time content, then update the existing
(user, url) row in place or insert a fresh row, and (re)schedule the
job. -/
def follow_freq_input (parse : String → List Node) (sha256_hex : String → String)
    (text url content : String) (user_id : Int) (now nextId : Nat)
    (store : List Monitor) (timers : List Timer) : BotOutcome :=
  match pyInt text with
  | none => ⟨ConvState.follow_freq, store, timers, "❌ Please enter a valid number."⟩
  | some interval =>
    if interval < 5 then
      ⟨ConvState.follow_freq, store, timers,
       "❌ Minimum interval is 5 minutes. Please try again."⟩
    else
      let current_hash := sha256_hex (clean_content parse content)
      match List.find? (fun m => m.user_id == user_id && m.url == url) store with
      | some existing =>
        ⟨ConvState.conv_end,
         updateFirstWhere (fun m => m.user_id == user_id && m.url == url)
           (fun m => { m with frequency := interval, is_active := true,
                              content_hash := some current_hash, last_checked := some now }) store,
         schedule_monitor_job timers existing.id url user_id interval,
         "✅ Updated existing monitor for " ++ url ++ " to " ++ toString interval ++ " minutes."⟩
      | none =>
        ⟨ConvState.conv_end,
         store ++ [⟨nextId, user_id, url, interval, some now, some current_hash, true⟩],
         schedule_monitor_job timers nextId url user_id interval,
         "✅ Started monitoring " ++ url ++ " every " ++ toString interval ++ " minutes."⟩

/-- update_save in bot.py: parse the interval, reject below 5 or
non-numeric, then update the frequency of the selected monitor when it
exists and belongs to the requesting user, and reschedule its job. -/
def update_save (text : String) (monitor_id : Nat) (user_id : Int)
    (store : List Monitor) (timers : List Timer) : BotOutcome :=
  match pyInt text with
  | none => ⟨ConvState.update_freq, store, timers, "❌ Please enter a valid number."⟩
  | some interval =>
    if interval < 5 then
      ⟨ConvState.update_freq, store, timers,
       "❌ Minimum interval is 5 minutes. Please try again."⟩
    else
      match getMonitor store monitor_id with
      | some monitor =>
        if monitor.user_id == user_id then
          ⟨ConvState.conv_end,
           updateFirstWhere (fun m => m.id == monitor_id)
             (fun m => { m with frequency := interval }) store,
           schedule_monitor_job timers monitor.id monitor.url user_id interval,
           "✅ Updated frequency to " ++ toString interval ++ " minutes for " ++ monitor.url ++ "."⟩
        else ⟨ConvState.conv_end, store, timers, "❌ Monitor not found."⟩
      | none => ⟨ConvState.conv_end, store, timers, "❌ Monitor not found."⟩

/-- The fields of a monitor row that a reconciliation write never
touches. -/
def monitorFrame (m : Monitor) : Nat × Int × String × Int × Bool :=
  (m.id, m.user_id, m.url, m.frequency, m.is_active)

/-- Concrete collaborators and rows used by the witness theorems: a fetch
that always fails, a parse yielding one text node, an identity stand-in
for the digest function, and one active monitor row with its job
payload. -/
def fetchNone : String → Option String := fun _ => none

def parseHi : String → List Node := fun _ => [Node.text "hi"]

def shaId : String → String := fun s => s

def sampleMonitor : Monitor := ⟨1, 7, "http://u", 5, none, some "h", true⟩

def sampleData : JobData := ⟨"http://u", 7, 1⟩

theorem removeBadList_append (bad : List String) (a b : List Node) :
    removeBadList bad (a ++ b) = removeBadList bad a ++ removeBadList bad b := by
  induction a with
  | nil => simp [removeBadList]
  | cons h t ih =>
    cases h with
    | text s => simp [removeBadList, ih]
    | elem tag cs =>
      by_cases hc : tag ∈ bad
      · simp [removeBadList, hc, ih]
      · simp [removeBadList, hc, ih]

theorem textNodesList_removeBadList (bad : List String) (ns : List Node) :
    textNodesList (removeBadList bad ns) = visibleTextsList bad ns := by
  induction ns using removeBadList.induct bad with
  | case1 => simp [removeBadList, textNodesList, visibleTextsList]
  | case2 s rest ih => simp [removeBadList, textNodesList, visibleTextsList, ih]
  | case3 tag cs rest hc ih =>
    have hc' : tag ∈ bad := by simpa using hc
    simp [removeBadList, textNodesList, visibleTextsList, hc', ih]
  | case4 tag cs rest hc ih1 ih2 =>
    have hc' : tag ∉ bad := by simpa using hc
    simp [removeBadList, textNodesList, visibleTextsList, hc', ih1, ih2]

theorem updateFirstWhere_length (p : Monitor → Bool) (f : Monitor → Monitor) :
    ∀ l, (updateFirstWhere p f l).length = l.length := by
  intro l
  induction l with
  | nil => rfl
  | cons a t ih => by_cases hp : p a <;> simp [updateFirstWhere, hp, ih]

theorem updateFirstWhere_map_eq {α : Type} (p : Monitor → Bool) (f : Monitor → Monitor)
    (g : Monitor → α) (h : ∀ x, g (f x) = g x) :
    ∀ l, (updateFirstWhere p f l).map g = l.map g := by
  intro l
  induction l with
  | nil => rfl
  | cons a t ih => by_cases hp : p a <;> simp [updateFirstWhere, hp, h, ih]

theorem find?_updateFirstWhere (p : Monitor → Bool) (f : Monitor → Monitor)
    (h : ∀ x, p (f x) = p x) :
    ∀ l, List.find? p (updateFirstWhere p f l) = (List.find? p l).map f := by
  intro l
  induction l with
  | nil => rfl
  | cons a t ih =>
    by_cases hp : p a
    · simp [updateFirstWhere, hp, List.find?_cons_of_pos, h]
    · simp [updateFirstWhere, hp, List.find?_cons_of_neg, ih, h]

theorem updateFirstWhere_filter_length (p q : Monitor → Bool) (f : Monitor → Monitor)
    (h : ∀ x, q (f x) = q x) :
    ∀ l, ((updateFirstWhere p f l).filter q).length = (l.filter q).length := by
  intro l
  induction l with
  | nil => rfl
  | cons a t ih =>
    by_cases hp : p a
    · by_cases hq : q a <;> simp [updateFirstWhere, hp, hq, h, List.filter_cons]
    · by_cases hq : q a <;> simp [updateFirstWhere, hp, hq, ih, List.filter_cons]

theorem updateFirstWhere_forall {P : Monitor → Prop} (p : Monitor → Bool)
    (f : Monitor → Monitor) :
    ∀ l, (∀ m ∈ l, P m) → (∀ m ∈ l, P (f m)) →
      ∀ m ∈ updateFirstWhere p f l, P m := by
  intro l
  induction l with
  | nil => intro _ _ m hm; simp [updateFirstWhere] at hm
  | cons a t ih =>
    intro h1 h2 m hm
    by_cases hp : p a
    · simp [updateFirstWhere, hp] at hm
      rcases hm with hm | hm
      · exact hm ▸ h2 a (by simp)
      · exact h1 m (by simp [hm])
    · simp [updateFirstWhere, hp] at hm
      rcases hm with hm | hm
      · exact hm ▸ h1 a (by simp)
      · exact ih (fun x hx => h1 x (by simp [hx])) (fun x hx => h2 x (by simp [hx])) m hm

theorem find?_some_updateFirstWhere_mem (p : Monitor → Bool) (f : Monitor → Monitor) :
    ∀ l a, List.find? p l = some a → f a ∈ updateFirstWhere p f l := by
  intro l
  induction l with
  | nil => intro a h; simp [List.find?] at h
  | cons b t ih =>
    intro a h
    by_cases hp : p b
    · rw [List.find?_cons_of_pos _ hp] at h
      injection h with h
      subst h
      simp [updateFirstWhere, hp]
    · rw [List.find?_cons_of_neg _ hp] at h
      simp [updateFirstWhere, hp]
      exact Or.inr (ih a h)

theorem find?_isSome_of_filter_length_pos (p : Monitor → Bool) (l : List Monitor)
    (h : 0 < (l.filter p).length) : ∃ a, List.find? p l = some a := by
  obtain ⟨x, hx⟩ := List.exists_mem_of_length_pos h
  have hx' := List.mem_filter.mp hx
  have hs : (List.find? p l).isSome := List.find?_isSome.mpr ⟨x, hx'.1, hx'.2⟩
  exact Option.isSome_iff_exists.mp hs

theorem changedSummary_ne_initial (n : Nat) :
    changedSummary n ≠ "Initial check. Monitoring started." := by
  intro h
  have hl : (changedSummary n).length = ("Initial check. Monitoring started." : String).length :=
    congrArg String.length h
  simp only [changedSummary, String.length_append] at hl
  have h1 : ("Content changed. New content length: " : String).length = 37 := rfl
  have h2 : (" characters." : String).length = 12 := rfl
  have h3 : ("Initial check. Monitoring started." : String).length = 34 := rfl
  rw [h1, h2, h3] at hl
  omega

/-- Claim C1: when the fetch fails, check_for_changes returns the previous
digest unchanged, changed = false and the fetch-failure summary (the code
string literally reads "Failed to fetch content.", which the spec labels
"fetch failed"); being a total function it never raises, so the stored
last-known-good hash is preserved. -/
theorem claim_C1_fetch_failure_preserves_digest
    (fetch_content : String → Option String) (parse : String → List Node)
    (sha256_hex : String → String) (url : String) (old_hash : Option String)
    (h : fetch_content url = none) :
    check_for_changes fetch_content parse sha256_hex url old_hash =
      (old_hash, false, "Failed to fetch content.") := by
  simp [check_for_changes, h]

theorem claim_C1_witness :
    check_for_changes (fun _ => none) (fun _ => [Node.text "hi"]) (fun s => s)
      "http://u" (some "h") = (some "h", false, "Failed to fetch content.") :=
  claim_C1_fetch_failure_preserves_digest (fun _ => none) (fun _ => [Node.text "hi"])
    (fun s => s) "http://u" (some "h") rfl

/-- Claim C2: on a successful (non-empty) fetch, check_for_changes
classifies exactly as: absent previous digest yields a present digest with
changed = false and the initial-check summary; equal digests yield
changed = false and the no-changes summary; a differing digest against a
present previous one yields changed = true with the content-changed
summary carrying the character length of the normalized text, and the new
digest differs from the previous one. -/
theorem claim_C2_success_classification
    (fetch_content : String → Option String) (parse : String → List Node)
    (sha256_hex : String → String) (url html : String)
    (hf : fetch_content url = some html) (hne : html ≠ "") :
    (check_for_changes fetch_content parse sha256_hex url none =
       (some (sha256_hex (clean_content parse html)), false,
        "Initial check. Monitoring started."))
  ∧ (∀ oh, sha256_hex (clean_content parse html) = oh →
       check_for_changes fetch_content parse sha256_hex url (some oh) =
         (some oh, false, "No changes."))
  ∧ (∀ oh, sha256_hex (clean_content parse html) ≠ oh →
       check_for_changes fetch_content parse sha256_hex url (some oh) =
         (some (sha256_hex (clean_content parse html)), true,
          changedSummary (clean_content parse html).length)
       ∧ some (sha256_hex (clean_content parse html)) ≠ some oh) := by
  have hni : html.isEmpty = false := by
    cases h : html.isEmpty
    · rfl
    · exact absurd ((String.isEmpty_iff html).mp h) hne
  refine ⟨?_, ?_, ?_⟩
  · simp [check_for_changes, hf, hni]
  · intro oh hoh
    subst hoh
    simp [check_for_changes, hf, hni]
  · intro oh hoh
    constructor
    · simp [check_for_changes, hf, hni, hoh]
    · simpa using hoh

theorem claim_C2_witness :
    (fun _ => some "page") "http://u" = some "page" ∧ ("page" : String) ≠ "" ∧
    check_for_changes (fun _ => some "page") (fun _ => [Node.text "hi"]) (fun s => s)
      "http://u" none =
      (some ((fun s : String => s) (clean_content (fun _ => [Node.text "hi"]) "page")),
       false, "Initial check. Monitoring started.") :=
  ⟨rfl, by decide,
   (claim_C2_success_classification (fun _ => some "page") (fun _ => [Node.text "hi"])
     (fun s => s) "http://u" "page" rfl (by decide)).1⟩

/-- Claim C8: clean_content yields the empty string on empty input and
never fails (it is total); removal of script/style/meta/noscript elements
removes the whole block including its inner text before extraction (the
text nodes surviving removal are exactly the ones outside every such
block); and the extracted output is independent of the contents of any
such block, so no literal text of a script or style block reaches the
output.  Joining uses the single-space separator with per-fragment
stripping by definition of get_text. -/
theorem claim_C8_clean_content_removes_blocks :
    (∀ parse : String → List Node, clean_content parse "" = "")
  ∧ (∀ ns : List Node,
       textNodesList (removeBadList removedTags ns) = visibleTextsList removedTags ns)
  ∧ (∀ (tag : String) (cs cs' pre post : List Node),
       removedTags.contains tag = true →
       get_text " " (removeBadList removedTags (pre ++ Node.elem tag cs :: post)) =
       get_text " " (removeBadList removedTags (pre ++ Node.elem tag cs' :: post))) := by
  refine ⟨?_, ?_, ?_⟩
  · intro parse
    rfl
  · intro ns
    exact textNodesList_removeBadList removedTags ns
  · intro tag cs cs' pre post hc
    have hc' : tag ∈ removedTags := by simpa using hc
    simp [get_text, removeBadList_append, removeBadList, hc']

theorem claim_C8_witness :
    removedTags.contains "script" = true ∧
    get_text " " (removeBadList removedTags
        ([Node.text "shown"] ++ Node.elem "script" [Node.text "SECRET"] :: [])) =
      get_text " " (removeBadList removedTags
        ([Node.text "shown"] ++ Node.elem "script" [] :: [])) :=
  ⟨rfl, claim_C8_clean_content_removes_blocks.2.2 "script" [Node.text "SECRET"] []
    [Node.text "shown"] [] rfl⟩

/-- Claim C9: a successful fetch with an empty body takes the same branch
as a fetch failure (the Python guard "if not html" is true for the empty
string): the previous digest is returned unchanged with changed = false
and the fetch-failure summary, the empty content is never hashed, and a
tick of the job on such a page performs no notification and no store
write. -/
theorem claim_C9_empty_body_like_fetch_failure
    (fetch_content : String → Option String) (parse : String → List Node)
    (sha256_hex : String → String) (url : String)
    (hf : fetch_content url = some "") :
    (∀ old_hash, check_for_changes fetch_content parse sha256_hex url old_hash =
       (old_hash, false, "Failed to fetch content."))
  ∧ (∀ (sendOk : Bool) (now : Nat) (data : JobData)
        (store_load store_write : List Monitor) (m : Monitor),
       data.url = url →
       getMonitor store_load data.monitor_id = some m →
       m.is_active = true →
       (check_url_job fetch_content parse sha256_hex sendOk now data
           store_load store_write).store = store_write
       ∧ (check_url_job fetch_content parse sha256_hex sendOk now data
           store_load store_write).attempted = []) := by
  have h1 : ∀ old_hash, check_for_changes fetch_content parse sha256_hex url old_hash =
      (old_hash, false, "Failed to fetch content.") := by
    intro old_hash
    have he : ("" : String).isEmpty = true := rfl
    simp [check_for_changes, hf, he]
  refine ⟨h1, ?_⟩
  intro sendOk now data store_load store_write m hd hm hact
  rw [check_url_job, hm]
  simp only [hact, if_true]
  rw [hd, h1 m.content_hash]
  simp

theorem claim_C9_witness :
    check_for_changes (fun _ => some "") (fun _ => [Node.text "hi"]) (fun s => s)
      "http://u" (some "h") = (some "h", false, "Failed to fetch content.") :=
  (claim_C9_empty_body_like_fetch_failure (fun _ => some "") (fun _ => [Node.text "hi"])
    (fun s => s) "http://u" rfl).1 (some "h")

/-- Claim C3: on a tick over a present, active monitor, with the detector
returning (nh, ch, sm): the job does not cancel its timer; it attempts a
notification to the owning user exactly when ch is true; the store write
happens iff ch is true or the returned digest differs from the loaded one,
and it is performed by re-loading the row from the write-time table and
setting only content_hash and last_checked, leaving id, user_id, url,
frequency and is_active of every row unchanged; the outcome does not
depend on whether the notification delivery succeeds; and when the digests
agree and ch is false there is no write and no notification. -/
theorem claim_C3_tick_reconciliation
    (fetch_content : String → Option String) (parse : String → List Node)
    (sha256_hex : String → String) (sendOk : Bool) (now : Nat) (data : JobData)
    (store_load store_write : List Monitor) (m : Monitor) (nh : Option String)
    (ch : Bool) (sm : String) (out : JobResult)
    (hm : getMonitor store_load data.monitor_id = some m)
    (hact : m.is_active = true)
    (hr : check_for_changes fetch_content parse sha256_hex data.url m.content_hash
            = (nh, ch, sm))
    (hout : check_url_job fetch_content parse sha256_hex sendOk now data
              store_load store_write = out) :
    out.cancelled = false
  ∧ out.attempted = (if ch then [(data.user_id, notifyText data.url sm)] else [])
  ∧ out.store = (if ch = true ∨ nh ≠ m.content_hash then
        updateMonitorRow store_write data.monitor_id nh now else store_write)
  ∧ out.store = (check_url_job fetch_content parse sha256_hex (!sendOk) now data
        store_load store_write).store
  ∧ out.store.map monitorFrame = store_write.map monitorFrame
  ∧ ((ch = true ∨ nh ≠ m.content_hash) →
       getMonitor out.store data.monitor_id =
         (getMonitor store_write data.monitor_id).map
           (fun x => { x with content_hash := nh, last_checked := some now }))
  ∧ (ch = false ∧ nh = m.content_hash → out.store = store_write ∧ out.attempted = []) := by
  subst hout
  have hframe : ∀ s nh2, (updateMonitorRow s data.monitor_id nh2 now).map monitorFrame
      = s.map monitorFrame := by
    intro s nh2
    simp only [updateMonitorRow]
    exact updateFirstWhere_map_eq (fun m => m.id == data.monitor_id)
      (fun m => { m with content_hash := nh2, last_checked := some now })
      monitorFrame (fun x => rfl) s
  have hget : ∀ s nh2, getMonitor (updateMonitorRow s data.monitor_id nh2 now) data.monitor_id
      = (getMonitor s data.monitor_id).map
          (fun x => { x with content_hash := nh2, last_checked := some now }) := by
    intro s nh2
    simp only [updateMonitorRow, getMonitor]
    exact find?_updateFirstWhere (fun m => m.id == data.monitor_id)
      (fun m => { m with content_hash := nh2, last_checked := some now })
      (fun x => rfl) s
  rw [check_url_job, hm]
  simp only [hact, if_true, hr]
  cases ch with
  | true =>
    refine ⟨rfl, rfl, by simp, ?_, by simpa using hframe store_write nh, ?_, ?_⟩
    · rw [check_url_job, hm]
      simp only [hact, if_true, hr]
    · intro _
      simpa using hget store_write nh
    · rintro ⟨h, -⟩
      exact absurd h (by simp)
  | false =>
    by_cases hnh : nh = m.content_hash
    · subst hnh
      simp only [if_true, ne_eq, not_true_eq_false, if_false]
      refine ⟨rfl, by simp, by simp, ?_, rfl, ?_, ?_⟩
      · rw [check_url_job, hm]
        simp only [hact, if_true, hr]
        simp
      · rintro (h | h) <;> simp at h
      · intro _
        exact ⟨rfl, rfl⟩
    · simp only [ne_eq, hnh, not_false_eq_true, if_true, if_false]
      refine ⟨rfl, by simp, by simp [hnh], ?_, by simpa using hframe store_write nh, ?_, ?_⟩
      · rw [check_url_job, hm]
        simp only [hact, if_true, hr]
        simp [hnh]
      · intro _
        simpa using hget store_write nh
      · rintro ⟨-, h⟩
        exact h.elim

/-- Claim C4: when the monitor row is absent from the load-time store or
its active flag is false, the tick cancels its own timer and returns
without fetching, without notifying and without writing: the store is
returned unchanged. -/
theorem claim_C4_self_termination
    (fetch_content : String → Option String) (parse : String → List Node)
    (sha256_hex : String → String) (sendOk : Bool) (now : Nat) (data : JobData)
    (store_load store_write : List Monitor)
    (h : getMonitor store_load data.monitor_id = none ∨
         ∃ m, getMonitor store_load data.monitor_id = some m ∧ m.is_active = false) :
    check_url_job fetch_content parse sha256_hex sendOk now data store_load store_write =
      ⟨store_write, true, [], [], false⟩ := by
  rcases h with h | ⟨m, hm, hact⟩
  · rw [check_url_job, h]
  · rw [check_url_job, hm]
    simp [hact]

theorem claim_C4_witness :
    check_url_job (fun _ => none) (fun _ => [Node.text "hi"]) (fun s => s) true 0
      ⟨"http://u", 7, 1⟩ [] [⟨1, 7, "http://u", 5, none, some "h", true⟩] =
      ⟨[⟨1, 7, "http://u", 5, none, some "h", true⟩], true, [], [], false⟩ :=
  claim_C4_self_termination (fun _ => none) (fun _ => [Node.text "hi"]) (fun s => s) true 0
    ⟨"http://u", 7, 1⟩ [] [⟨1, 7, "http://u", 5, none, some "h", true⟩] (Or.inl rfl)


theorem claim_C3_witness :
    (check_url_job fetchNone parseHi shaId true 0 sampleData [sampleMonitor]
        [sampleMonitor]).cancelled = false
  ∧ (check_url_job fetchNone parseHi shaId true 0 sampleData [sampleMonitor]
        [sampleMonitor]).attempted =
      (if false then [(sampleData.user_id,
          notifyText sampleData.url "Failed to fetch content.")] else [])
  ∧ (check_url_job fetchNone parseHi shaId true 0 sampleData [sampleMonitor]
        [sampleMonitor]).store =
      (if false = true ∨ some "h" ≠ sampleMonitor.content_hash then
        updateMonitorRow [sampleMonitor] sampleData.monitor_id (some "h") 0
       else [sampleMonitor])
  ∧ (check_url_job fetchNone parseHi shaId true 0 sampleData [sampleMonitor]
        [sampleMonitor]).store =
      (check_url_job fetchNone parseHi shaId (!true) 0 sampleData [sampleMonitor]
        [sampleMonitor]).store
  ∧ (check_url_job fetchNone parseHi shaId true 0 sampleData [sampleMonitor]
        [sampleMonitor]).store.map monitorFrame = [sampleMonitor].map monitorFrame
  ∧ ((false = true ∨ some "h" ≠ sampleMonitor.content_hash) →
      getMonitor (check_url_job fetchNone parseHi shaId true 0 sampleData [sampleMonitor]
          [sampleMonitor]).store sampleData.monitor_id =
        (getMonitor [sampleMonitor] sampleData.monitor_id).map
          (fun x => { x with content_hash := some "h", last_checked := some 0 }))
  ∧ (false = false ∧ some "h" = sampleMonitor.content_hash →
      (check_url_job fetchNone parseHi shaId true 0 sampleData [sampleMonitor]
          [sampleMonitor]).store = [sampleMonitor]
      ∧ (check_url_job fetchNone parseHi shaId true 0 sampleData [sampleMonitor]
          [sampleMonitor]).attempted = []) :=
  claim_C3_tick_reconciliation fetchNone parseHi shaId true 0 sampleData [sampleMonitor]
    [sampleMonitor] sampleMonitor (some "h") false "Failed to fetch content."
    (check_url_job fetchNone parseHi shaId true 0 sampleData [sampleMonitor]
      [sampleMonitor]) rfl rfl rfl rfl

/-- Claim C5: completing the follow flow when a row for (user, url)
already exists (here: the query by that pair returns exactly one row)
updates that row in place — interval, hash, active flag and last_checked —
inserts nothing (the table length is unchanged), and the query by
(user, url) still returns exactly one row afterwards. -/
theorem claim_C5_no_duplicate_rows
    (parse : String → List Node) (sha256_hex : String → String)
    (text url content : String) (user_id : Int) (now nextId : Nat)
    (store : List Monitor) (timers : List Timer) (interval : Int) (res : BotOutcome)
    (hi : pyInt text = some interval) (h5 : 5 ≤ interval)
    (hone : (store.filter (fun m => m.user_id == user_id && m.url == url)).length = 1)
    (hres : follow_freq_input parse sha256_hex text url content user_id now nextId
              store timers = res) :
    res.store.length = store.length
  ∧ res.store = updateFirstWhere (fun m => m.user_id == user_id && m.url == url)
      (fun m => { m with frequency := interval, is_active := true,
                         content_hash := some (sha256_hex (clean_content parse content)),
                         last_checked := some now }) store
  ∧ (res.store.filter (fun m => m.user_id == user_id && m.url == url)).length = 1 := by
  subst hres
  obtain ⟨a, ha⟩ := find?_isSome_of_filter_length_pos
    (fun m => m.user_id == user_id && m.url == url) store (by omega)
  have h5' : ¬ interval < 5 := not_lt.mpr h5
  rw [follow_freq_input, hi]
  simp only [h5', if_false, ha]
  refine ⟨?_, ?_, ?_⟩
  · exact updateFirstWhere_length _ _ store
  · trivial
  · exact (updateFirstWhere_filter_length
      (fun m => m.user_id == user_id && m.url == url)
      (fun m => m.user_id == user_id && m.url == url)
      (fun m => { m with frequency := interval, is_active := true,
                         content_hash := some (sha256_hex (clean_content parse content)),
                         last_checked := some now })
      (fun x => rfl) store).trans hone

theorem claim_C5_witness :
    pyInt "7" = some 7 ∧ (5 : Int) ≤ 7
  ∧ (([sampleMonitor] : List Monitor).filter
      (fun m => m.user_id == (7 : Int) && m.url == "http://u")).length = 1
  ∧ ((follow_freq_input parseHi shaId "7" "http://u" "c" 7 0 2 [sampleMonitor] []).store.length
       = ([sampleMonitor] : List Monitor).length
     ∧ (follow_freq_input parseHi shaId "7" "http://u" "c" 7 0 2 [sampleMonitor] []).store =
         updateFirstWhere (fun m => m.user_id == (7 : Int) && m.url == "http://u")
           (fun m => { m with frequency := (7 : Int), is_active := true,
                              content_hash := some (shaId (clean_content parseHi "c")),
                              last_checked := some 0 }) [sampleMonitor]
     ∧ ((follow_freq_input parseHi shaId "7" "http://u" "c" 7 0 2 [sampleMonitor] []).store.filter
          (fun m => m.user_id == (7 : Int) && m.url == "http://u")).length = 1) :=
  ⟨by decide, by decide, by decide,
   claim_C5_no_duplicate_rows parseHi shaId "7" "http://u" "c" 7 0 2 [sampleMonitor] [] 7
     (follow_freq_input parseHi shaId "7" "http://u" "c" 7 0 2 [sampleMonitor] [])
     (by decide) (by decide) (by decide) rfl⟩

/-- Claim C6: scheduling first cancels every timer named str(monitor_id)
and then installs exactly one new recurring timer with that name, a
10-second first-fire delay and a repeat interval of interval minutes (in
seconds); timers with other names are untouched, and scheduling the same
id again yields the same queue as scheduling it once. -/
theorem claim_C6_schedule_idempotent
    (q : List Timer) (monitor_id : Nat) (url : String) (user_id : Int) (interval : Int) :
    (schedule_monitor_job q monitor_id url user_id interval).filter
        (fun j => j.name == toString monitor_id)
      = [⟨toString monitor_id, interval * 60, 10, ⟨url, user_id, monitor_id⟩⟩]
  ∧ (schedule_monitor_job q monitor_id url user_id interval).filter
        (fun j => !(j.name == toString monitor_id))
      = q.filter (fun j => !(j.name == toString monitor_id))
  ∧ schedule_monitor_job (schedule_monitor_job q monitor_id url user_id interval)
        monitor_id url user_id interval
      = schedule_monitor_job q monitor_id url user_id interval := by
  refine ⟨?_, ?_, ?_⟩
  · simp [schedule_monitor_job, remove_jobs_by_name, List.filter_append, List.filter_filter]
  · simp [schedule_monitor_job, remove_jobs_by_name, List.filter_append, List.filter_filter]
  · simp [schedule_monitor_job, remove_jobs_by_name, List.filter_append, List.filter_filter]

/-- Claim C7: a non-numeric interval or one below 5 minutes is rejected
before persistence in both the follow flow and the update flow: the
handler re-prompts with an error message, table and job queue are
unchanged; and both handlers preserve the invariant that every persisted
row has frequency at least 5. -/
theorem claim_C7_interval_validation :
    (∀ (parse : String → List Node) (sha256_hex : String → String)
       (text url content : String) (user_id : Int) (now nextId : Nat)
       (store : List Monitor) (timers : List Timer),
       pyInt text = none →
       follow_freq_input parse sha256_hex text url content user_id now nextId store timers =
         ⟨ConvState.follow_freq, store, timers, "❌ Please enter a valid number."⟩)
  ∧ (∀ (parse : String → List Node) (sha256_hex : String → String)
       (text url content : String) (user_id : Int) (now nextId : Nat)
       (store : List Monitor) (timers : List Timer) (interval : Int),
       pyInt text = some interval → interval < 5 →
       follow_freq_input parse sha256_hex text url content user_id now nextId store timers =
         ⟨ConvState.follow_freq, store, timers,
          "❌ Minimum interval is 5 minutes. Please try again."⟩)
  ∧ (∀ (text : String) (monitor_id : Nat) (user_id : Int)
       (store : List Monitor) (timers : List Timer),
       pyInt text = none →
       update_save text monitor_id user_id store timers =
         ⟨ConvState.update_freq, store, timers, "❌ Please enter a valid number."⟩)
  ∧ (∀ (text : String) (monitor_id : Nat) (user_id : Int)
       (store : List Monitor) (timers : List Timer) (interval : Int),
       pyInt text = some interval → interval < 5 →
       update_save text monitor_id user_id store timers =
         ⟨ConvState.update_freq, store, timers,
          "❌ Minimum interval is 5 minutes. Please try again."⟩)
  ∧ (∀ (parse : String → List Node) (sha256_hex : String → String)
       (text url content : String) (user_id : Int) (now nextId : Nat)
       (store : List Monitor) (timers : List Timer),
       (∀ m ∈ store, 5 ≤ m.frequency) →
       ∀ m ∈ (follow_freq_input parse sha256_hex text url content user_id now nextId
                store timers).store, 5 ≤ m.frequency)
  ∧ (∀ (text : String) (monitor_id : Nat) (user_id : Int)
       (store : List Monitor) (timers : List Timer),
       (∀ m ∈ store, 5 ≤ m.frequency) →
       ∀ m ∈ (update_save text monitor_id user_id store timers).store, 5 ≤ m.frequency) := by
  refine ⟨?_, ?_, ?_, ?_, ?_, ?_⟩
  · intro parse sha256_hex text url content user_id now nextId store timers hn
    rw [follow_freq_input, hn]
  · intro parse sha256_hex text url content user_id now nextId store timers interval hi h5
    rw [follow_freq_input, hi]
    simp [h5]
  · intro text monitor_id user_id store timers hn
    rw [update_save, hn]
  · intro text monitor_id user_id store timers interval hi h5
    rw [update_save, hi]
    simp [h5]
  · intro parse sha256_hex text url content user_id now nextId store timers hinv
    rw [follow_freq_input]
    cases hi : pyInt text with
    | none => exact hinv
    | some interval =>
      by_cases h5 : interval < 5
      · simp only [h5, if_true]
        exact hinv
      · have h5' : 5 ≤ interval := not_lt.mp h5
        simp only [h5, if_false]
        cases hf : List.find? (fun m => m.user_id == user_id && m.url == url) store with
        | some existing =>
          exact updateFirstWhere_forall _ _ store hinv (fun m _ => h5') 
        | none =>
          intro m hm
          rcases List.mem_append.mp hm with hm | hm
          · exact hinv m hm
          · rcases List.mem_singleton.mp hm with rfl
            exact h5'
  · intro text monitor_id user_id store timers hinv
    rw [update_save]
    cases hi : pyInt text with
    | none => exact hinv
    | some interval =>
      by_cases h5 : interval < 5
      · simp only [h5, if_true]
        exact hinv
      · have h5' : 5 ≤ interval := not_lt.mp h5
        simp only [h5, if_false]
        cases hg : getMonitor store monitor_id with
        | some monitor =>
          by_cases hu : monitor.user_id == user_id
          · simp only [hu, if_true]
            exact updateFirstWhere_forall _ _ store hinv (fun m _ => h5')
          · simp only [hu, if_false]
            exact hinv
        | none =>
          exact hinv

theorem claim_C7_witness :
    pyInt "abc" = none ∧
    follow_freq_input parseHi shaId "abc" "http://u" "c" 7 0 2 [] [] =
      ⟨ConvState.follow_freq, [], [], "❌ Please enter a valid number."⟩ :=
  ⟨by decide,
   claim_C7_interval_validation.1 parseHi shaId "abc" "http://u" "c" 7 0 2 [] [] (by decide)⟩

/-- Claim C10: a row persisted by a completed follow flow carries a
non-null content_hash — the digest of the verification-time content,
normalized and hashed at save time — and a non-null last_checked, in both
the update-existing and the insert branch; and the initial-check branch of
check_for_changes is unreachable when the stored digest is present. -/
theorem claim_C10_baseline_hash_persisted
    (parse : String → List Node) (sha256_hex : String → String)
    (text url content : String) (user_id : Int) (now nextId : Nat)
    (store : List Monitor) (timers : List Timer) (interval : Int) (res : BotOutcome)
    (hi : pyInt text = some interval) (h5 : 5 ≤ interval)
    (hres : follow_freq_input parse sha256_hex text url content user_id now nextId
              store timers = res) :
    (∃ m, m ∈ res.store ∧ m.user_id = user_id ∧ m.url = url
        ∧ m.content_hash = some (sha256_hex (clean_content parse content))
        ∧ m.last_checked = some now)
  ∧ (∀ (fetch_content : String → Option String) (url2 oh : String),
       (check_for_changes fetch_content parse sha256_hex url2 (some oh)).2.2 ≠
         "Initial check. Monitoring started.") := by
  constructor
  · subst hres
    have h5' : ¬ interval < 5 := not_lt.mpr h5
    rw [follow_freq_input, hi]
    simp only [h5', if_false]
    cases hf : List.find? (fun m => m.user_id == user_id && m.url == url) store with
    | some existing =>
      have hp := List.find?_some hf
      have hu : existing.user_id = user_id := by
        have := (Bool.and_eq_true _ _).mp hp
        exact eq_of_beq this.1
      have hurl : existing.url = url := by
        have := (Bool.and_eq_true _ _).mp hp
        exact eq_of_beq this.2
      refine ⟨_, find?_some_updateFirstWhere_mem _ _ store existing hf, hu, hurl, rfl, rfl⟩
    | none =>
      refine ⟨⟨nextId, user_id, url, interval, some now,
        some (sha256_hex (clean_content parse content)), true⟩, ?_, rfl, rfl, rfl, rfl⟩
      simp
  · intro fetch_content url2 oh
    cases hfu : fetch_content url2 with
    | none =>
      have hres2 : check_for_changes fetch_content parse sha256_hex url2 (some oh)
          = (some oh, false, "Failed to fetch content.") := by
        simp [check_for_changes, hfu]
      rw [hres2]
      show "Failed to fetch content." ≠ "Initial check. Monitoring started."
      decide
    | some html =>
      by_cases he : html.isEmpty
      · have hres2 : check_for_changes fetch_content parse sha256_hex url2 (some oh)
            = (some oh, false, "Failed to fetch content.") := by
          simp [check_for_changes, hfu, he]
        rw [hres2]
        show "Failed to fetch content." ≠ "Initial check. Monitoring started."
        decide
      · by_cases hh : sha256_hex (clean_content parse html) = oh
        · have hres2 : check_for_changes fetch_content parse sha256_hex url2 (some oh)
              = (some oh, false, "No changes.") := by
            simp [check_for_changes, hfu, he, hh]
          rw [hres2]
          show "No changes." ≠ "Initial check. Monitoring started."
          decide
        · have hres2 : check_for_changes fetch_content parse sha256_hex url2 (some oh)
              = (some (sha256_hex (clean_content parse html)), true,
                 changedSummary (clean_content parse html).length) := by
            simp [check_for_changes, hfu, he, hh]
          rw [hres2]
          exact changedSummary_ne_initial _

theorem claim_C10_witness :
    pyInt "7" = some 7 ∧ (5 : Int) ≤ 7
  ∧ (∃ m, m ∈ (follow_freq_input parseHi shaId "7" "http://u" "c" 7 0 2 [] []).store
        ∧ m.user_id = 7 ∧ m.url = "http://u"
        ∧ m.content_hash = some (shaId (clean_content parseHi "c"))
        ∧ m.last_checked = some 0) :=
  ⟨by decide, by decide,
   (claim_C10_baseline_hash_persisted parseHi shaId "7" "http://u" "c" 7 0 2 [] [] 7
     (follow_freq_input parseHi shaId "7" "http://u" "c" 7 0 2 [] [])
     (by decide) (by decide) rfl).1⟩
